import Mathlib

/-!
Shallow embedding of `streamlit_app.py` (news_streamlit repository).

The core pipeline (source adapters, normalizer/scorer, aggregator, query
engine) is embedded as Lean functions.  Python dynamic values arriving from
JSON are modelled by `JVal`; Python `dict.get`, truthiness, `int()`/`float()`
conversions and exceptions are modelled explicitly (`Except String` plays the
role of an uncaught Python exception crossing a function boundary).

External effects are parameters of the embedding:
* the HTTP layer (httpx get / raise_for_status / .json()) is an
  `Except String JVal` input: `.ok v` is a successfully parsed JSON payload,
  `.error e` is any exception raised inside the adapter's `try` block;
* the Python standard-library parsers `int(str)`, `float(str)` and
  `datetime.fromisoformat` are uninterpreted function parameters;
* the clock `datetime.now(timezone.utc)` is a rational parameter `now`
  (epoch seconds); timestamps are rational epoch seconds.

Float arithmetic of the scoring functions is modelled over the real numbers.
-/

namespace NewsApp

/-- A Python/JSON dynamic value (the result of `r.json()` and its parts).
`null` also stands for Python `None`, in particular for a missing dict key
read through `.get`. -/
inductive JVal where
  | null
  | b (x : Bool)
  | i (n : Int)
  | f (q : ℚ)
  | s (strV : String)
  | arr (xs : List JVal)
  | obj (kvs : List (String × JVal))

/-- Python truthiness of a JSON value (`if v:`, `v or w`). -/
def truthy : JVal → Bool
  | .null => false
  | .b x => x
  | .i n => n != 0
  | .f q => q != 0
  | .s strV => strV != ""
  | .arr xs => !xs.isEmpty
  | .obj kvs => !kvs.isEmpty

/-- Python `str(v)` as used inside f-strings.  Strings render as themselves,
`None` as `"None"`, integers decimally.  The remaining cases (floats,
lists, dicts) are rendered by placeholders: no claim exercises them. -/
def pyStr : JVal → String
  | .null => "None"
  | .b true => "True"
  | .b false => "False"
  | .i n => toString n
  | .f q => toString q
  | .s strV => strV
  | .arr _ => "<list>"
  | .obj _ => "<dict>"

/-- Python `v.get(k, dflt)`.  On a non-dict receiver it raises
`AttributeError` (the payload string names the exception type). -/
def pyGet (j : JVal) (k : String) (dflt : JVal) : Except String JVal :=
  match j with
  | .obj kvs => .ok ((List.lookup k kvs).getD dflt)
  | _ => .error "AttributeError"

/-- Python iteration `for x in v`: lists yield elements, dicts their keys,
strings their characters; other values raise `TypeError`. -/
def pyIter : JVal → Except String (List JVal)
  | .arr xs => .ok xs
  | .obj kvs => .ok (kvs.map (fun kv => .s kv.1))
  | .s strV => .ok (strV.data.map (fun c => .s (String.mk [c])))
  | _ => .error "TypeError"

/-- Python `int(v)`, with the stdlib string-to-int parser abstracted as
`intParse`.  `int()` of a non-numeric string raises `ValueError`; of
`None`, a list or a dict raises `TypeError`; floats truncate toward zero. -/
def pyInt (intParse : String → Option Int) : JVal → Except String Int
  | .i n => .ok n
  | .f q => .ok (Int.tdiv q.num q.den)
  | .b x => .ok (if x then 1 else 0)
  | .s strV =>
    match intParse strV with
    | some n => .ok n
    | none => .error "ValueError"
  | .null => .error "TypeError"
  | .arr _ => .error "TypeError"
  | .obj _ => .error "TypeError"

/-- Python `float(v)`, with the stdlib string-to-float parser abstracted as
`floatParse`. -/
def pyFloat (floatParse : String → Option ℚ) : JVal → Except String ℚ
  | .i n => .ok n
  | .f q => .ok q
  | .b x => .ok (if x then 1 else 0)
  | .s strV =>
    match floatParse strV with
    | some q => .ok q
    | none => .error "ValueError"
  | .null => .error "TypeError"
  | .arr _ => .error "TypeError"
  | .obj _ => .error "TypeError"

/-- Extract the string out of a JSON value that the program goes on to use
as Python `str`.  In Python a truthy non-string would be stored unchanged
and only crash later (e.g. when sliced in `aggregate`); the embedding keeps
records well-typed by surfacing that type confusion here, at extraction.
No claim distinguishes the two behaviours: every theorem below feeds
string-or-null-or-absent fields through this function. -/
def expectStr : JVal → Except String String
  | .s strV => .ok strV
  | _ => .error "TypeError"

/-- A Python `datetime`: wall-clock epoch seconds plus an optional UTC
offset in seconds (`none` = naive datetime). -/
structure PyDatetime where
  wallclock : ℚ
  tzOffset : Option ℚ
deriving DecidableEq

/-- `dt.replace(tzinfo=timezone.utc)` applied only to naive datetimes:
the naive wall-clock time is reinterpreted as UTC (source lines 32-33). -/
def aware (d : PyDatetime) : PyDatetime :=
  match d.tzOffset with
  | none => ⟨d.wallclock, some 0⟩
  | some _ => d

/-- The absolute instant of an aware datetime, as epoch seconds. -/
def utcSeconds (d : PyDatetime) : ℚ :=
  d.wallclock - d.tzOffset.getD 0

/-- `age_hours` of source line 34: elapsed hours between the timestamp and
the scoring instant `now` (epoch seconds). -/
def ageHours (now : ℚ) (d : PyDatetime) : ℚ :=
  (now - utcSeconds (aware d)) / 3600

/-- `time_decay_score` (source lines 29-36): 0 for a missing timestamp,
otherwise `100 * exp(-age_hours / 24)`. -/
noncomputable def time_decay_score (now : ℚ) : Option PyDatetime → ℝ
  | none => 0
  | some d => 100 * Real.exp (-((ageHours now d : ℚ) : ℝ) / 24)

/-- `normalize_points` (source lines 38-42): 0 for `None` or 0 points
(Python falsiness), otherwise `log10(max(points, 1)) * 100`. -/
noncomputable def normalize_points : Option Int → ℝ
  | none => 0
  | some p => if p = 0 then 0 else Real.logb 10 ((max p 1 : ℤ) : ℝ) * 100

/-- `parse_dt_iso` (source lines 44-52) over the dynamic value read from
`h.get("created_at")`, with `datetime.fromisoformat` abstracted as
`fromiso`.  A falsy value gives `None`; a non-string truthy value raises
inside the `try` and is caught, giving `None`; parse failure gives `None`. -/
def parse_dt_iso (fromiso : String → Option PyDatetime) (v : JVal) :
    Option PyDatetime :=
  if truthy v then
    match v with
    | .s strV =>
      fromiso (if strV.endsWith "Z" then strV.replace "Z" "+00:00" else strV)
    | _ => none
  else none

/-- One record of the pipeline: the article dicts built by the fetchers,
the error-marker dicts `{"__error__": msg}`, and the scored dicts after
`aggregate` mutates them.  A field is `none` when the corresponding key is
absent (or holds `None`). -/
structure Rec where
  title : Option String
  url : Option String
  source : Option String
  points : Option Int
  comments : Option Int
  author : JVal
  published_at : Option PyDatetime
  score : Option ℝ
  category : Option String
  error : Option String

/-- The error-marker dict `{"__error__": m}` returned by a failing fetcher. -/
def errRec (m : String) : Rec :=
  ⟨none, none, none, none, none, .null, none, none, none, some m⟩

/-- An article dict as built by the fetchers (no score/category yet). -/
def mkArticle (title url source : String) (points comments : Int)
    (author : JVal) (published_at : Option PyDatetime) : Rec :=
  ⟨some title, some url, some source, some points, some comments, author,
   published_at, none, none, none⟩

/-- Python string slicing `s[:n]`: the first `n` code points. -/
def pyTake (s : String) (n : Nat) : String := String.mk (s.data.take n)

/-- The de-duplication key of source line 156:
`(a.get("url"), (a.get("title") or "")[:80])`. -/
def dedupKey (a : Rec) : Option String × String :=
  (a.url, pyTake (a.title.getD "") 80)

/-- The de-duplication loop of source lines 153-160, with `seen` the set of
keys already kept. -/
def dedupAux : List (Option String × String) → List Rec → List Rec
  | _, [] => []
  | seen, a :: rest =>
    if dedupKey a ∈ seen then dedupAux seen rest
    else a :: dedupAux (dedupKey a :: seen) rest

/-- De-duplication by `(url, title[:80])`, first-seen wins. -/
def dedup (rs : List Rec) : List Rec := dedupAux [] rs

/-- The mutation of source lines 148-150 on one record: attach
`score = normalize_points(points) + time_decay_score(published_at)` and the
configured category. -/
noncomputable def scoreRec (now : ℚ) (category : String) (a : Rec) : Rec :=
  ⟨a.title, a.url, a.source, a.points, a.comments, a.author, a.published_at,
   some (normalize_points a.points + time_decay_score now a.published_at),
   some category, a.error⟩

/-- Source lines 148-150 over the whole list. -/
noncomputable def scoreAll (now : ℚ) (category : String) (rs : List Rec) :
    List Rec :=
  rs.map (scoreRec now category)

/-- `aggregate` (source lines 131-162).  The fetch results are parameters:
`fhn` is what `fetch_hn()` returned, `fr s` what `fetch_reddit(s)` returned
(both are served through the cache in the app).  Reddit subreddits are
extended first, then Hacker News; then every record (error markers
included) is scored and categorized; finally the list is de-duplicated. -/
noncomputable def aggregate (fhn : List Rec) (fr : String → List Rec)
    (now : ℚ) (category : String) (enable_hn enable_reddit : Bool)
    (subreddits : List String) : List Rec :=
  dedup (scoreAll now category
    ((if enable_reddit then (subreddits.map fr).flatten else []) ++
     (if enable_hn then fhn else [])))

/-- The error marker message of `fetch_hn` (source line 75). -/
def hnErrMsg (e : String) : String := "HN fetch failed: " ++ e

/-- The error marker message of `fetch_reddit` (source line 105). -/
def redditErrMsg (sub e : String) : String :=
  "r/" ++ sub ++ " fetch failed: " ++ e

/-- The fallback URL of source line 79:
`f"https://news.ycombinator.com/item?id={h.get('objectID')}"`. -/
def hnFallbackUrl (oid : JVal) : String :=
  "https://news.ycombinator.com/item?id=" ++ pyStr oid

/-- One iteration of the `fetch_hn` parse loop (source lines 78-93). -/
def hnHit (intParse : String → Option Int)
    (fromiso : String → Option PyDatetime) (h : JVal) :
    Except String Rec := do
  let urlv ← pyGet h "url" .null
  let url ←
    if truthy urlv then expectStr urlv
    else do
      let oid ← pyGet h "objectID" .null
      pure (hnFallbackUrl oid)
  let titlev ← pyGet h "title" .null
  let title ← if truthy titlev then expectStr titlev else pure "(no title)"
  let pv ← pyGet h "points" .null
  let points ← pyInt intParse (if truthy pv then pv else .i 0)
  let cv ← pyGet h "num_comments" .null
  let comments ← pyInt intParse (if truthy cv then cv else .i 0)
  let author ← pyGet h "author" .null
  let cav ← pyGet h "created_at" .null
  pure (⟨some title, some url, some "Hacker News", some points, some comments,
    author, parse_dt_iso fromiso cav, none, none, none⟩ : Rec)

/-- `fetch_hn` (source lines 67-94).  `http` is the outcome of the guarded
HTTP block: `.error e` when `client.get`/`raise_for_status`/`r.json()`
raised (the marker is returned), `.ok data` on success, after which the
parse loop runs outside any `try` and may itself raise (`.error` result). -/
def fetch_hn (intParse : String → Option Int)
    (fromiso : String → Option PyDatetime) (http : Except String JVal) :
    Except String (List Rec) :=
  match http with
  | .error e => .ok [errRec (hnErrMsg e)]
  | .ok data => do
    let hitsv ← pyGet data "hits" (.arr [])
    let hits ← pyIter hitsv
    hits.mapM (hnHit intParse fromiso)

/-- One iteration of the `fetch_reddit` parse loop (source lines 108-125).
`d.get("permalink", "")` is read eagerly here; in Python the f-string
evaluates it only when both URL fields are falsy, but by then `d` is known
to be a dict, so the two are observationally equal. -/
def redditChild (intParse : String → Option Int)
    (floatParse : String → Option ℚ) (sub : String) (child : JVal) :
    Except String Rec := do
  let d ← pyGet child "data" (.obj [])
  let cu ← pyGet d "created_utc" .null
  let dt :=
    if truthy cu then
      match pyFloat floatParse cu with
      | .ok q => some (⟨q, some 0⟩ : PyDatetime)
      | .error _ => none
    else none
  let titlev ← pyGet d "title" .null
  let title ← if truthy titlev then expectStr titlev else pure "(no title)"
  let u1 ← pyGet d "url_overridden_by_dest" .null
  let u2 ← pyGet d "url" .null
  let pl ← pyGet d "permalink" (.s "")
  let url ←
    if truthy u1 then expectStr u1
    else if truthy u2 then expectStr u2
    else pure ("https://reddit.com" ++ pyStr pl)
  let upsv ← pyGet d "ups" .null
  let scv ← pyGet d "score" .null
  let points ← pyInt intParse
    (if truthy upsv then upsv else if truthy scv then scv else .i 0)
  let ncv ← pyGet d "num_comments" .null
  let comments ← pyInt intParse (if truthy ncv then ncv else .i 0)
  let author ← pyGet d "author" .null
  pure (⟨some title, some url, some ("r/" ++ sub), some points, some comments,
    author, dt, none, none, none⟩ : Rec)

/-- `fetch_reddit` (source lines 96-126), set up like `fetch_hn`. -/
def fetch_reddit (intParse : String → Option Int)
    (floatParse : String → Option ℚ) (sub : String)
    (http : Except String JVal) : Except String (List Rec) :=
  match http with
  | .error e => .ok [errRec (redditErrMsg sub e)]
  | .ok data => do
    let dv ← pyGet data "data" (.obj [])
    let cv ← pyGet dv "children" (.arr [])
    let children ← pyIter cv
    children.mapM (redditChild intParse floatParse sub)

/-- Source line 218: `[a["__error__"] for a in items if "__error__" in a]`. -/
def extractErrors (items : List Rec) : List String :=
  items.filterMap (fun a => a.error)

/-- Source line 219: `[a for a in items if "__error__" not in a]`. -/
def removeErrors (items : List Rec) : List Rec :=
  items.filter (fun a => a.error.isNone)

/-- Python `str.strip()` whitespace class (ASCII part). -/
def pySpace (c : Char) : Bool :=
  c == ' ' || c == '\t' || c == '\n' || c == '\r' ||
  c == Char.ofNat 11 || c == Char.ofNat 12

/-- Python `s.strip()` on the character list. -/
def pyStripL (l : List Char) : List Char :=
  ((l.dropWhile pySpace).reverse.dropWhile pySpace).reverse

/-- Python `s.strip()`. -/
def pyStrip (s : String) : String := String.mk (pyStripL s.data)

/-- Python `s.lower()` (ASCII part). -/
def pyLower (s : String) : String := String.mk (s.data.map Char.toLower)

/-- Python `s.split(",")` on the character list. -/
def pySplitCommaL : List Char → List (List Char)
  | [] => [[]]
  | c :: rest =>
    if c = ',' then [] :: pySplitCommaL rest
    else
      match pySplitCommaL rest with
      | [] => [[c]]
      | p :: ps => (c :: p) :: ps

/-- Python `s.split(",")`. -/
def pySplitComma (s : String) : List String :=
  (pySplitCommaL s.data).map String.mk

/-- Boolean list-as-prefix test on characters. -/
def listPrefixOf : List Char → List Char → Bool
  | [], _ => true
  | _ :: _, [] => false
  | a :: la, b :: lb => a == b && listPrefixOf la lb

/-- Boolean contiguous-sublist test on characters. -/
def listInfixOf (needle : List Char) : List Char → Bool
  | [] => needle.isEmpty
  | c :: rest => listPrefixOf needle (c :: rest) || listInfixOf needle rest

/-- Python `needle in hay` on strings (substring containment). -/
def pyIn (needle hay : String) : Bool :=
  listInfixOf needle.data hay.data

/-- The keyword list of source line 233:
`[k.strip().lower() for k in keywords_csv.split(",") if k.strip()]`. -/
def kwList (keywords_csv : String) : List String :=
  ((pySplitComma keywords_csv).filter (fun k => pyStrip k ≠ "")).map
    (fun k => pyLower (pyStrip k))

/-- `matches_keywords` (source lines 230-240). -/
def matches_keywords (text keywords_csv : String) (must_include : Bool) :
    Bool :=
  if pyStrip keywords_csv = "" then true
  else
    let kws := kwList keywords_csv
    if kws = [] then true
    else
      let t := pyLower text
      if must_include then kws.any (fun k => pyIn k t)
      else !(kws.any (fun k => pyIn k t))

/-- The pagination slice of source lines 261-263:
`items[(page-1)*page_size : (page-1)*page_size + page_size]` with the
1-based page from the UI (`page ≥ 1`, so the Python indices are
non-negative and the slice is drop-then-take). -/
def page_items {α : Type} (items : List α) (page_size page : ℕ) : List α :=
  (items.drop ((page - 1) * page_size)).take page_size

/-! ## Helper lemmas -/

theorem normalize_points_eq_logb (r : Int) :
    normalize_points (some r) = Real.logb 10 ((max r 1 : ℤ) : ℝ) * 100 := by
  by_cases h : r = 0
  · subst h
    simp [normalize_points, Real.logb_one]
  · simp [normalize_points, h]

theorem normalize_points_nonneg (r : Int) : 0 ≤ normalize_points (some r) := by
  rw [normalize_points_eq_logb]
  have h1 : (1 : ℝ) ≤ ((max r 1 : ℤ) : ℝ) := by exact_mod_cast le_max_right r 1
  have := Real.logb_nonneg (b := 10) (by norm_num) h1
  linarith

theorem normalize_points_mono {p q : Int} (hpq : p ≤ q) :
    normalize_points (some p) ≤ normalize_points (some q) := by
  rw [normalize_points_eq_logb, normalize_points_eq_logb]
  have h1 : (0 : ℝ) < ((max p 1 : ℤ) : ℝ) := by
    exact_mod_cast lt_of_lt_of_le Int.zero_lt_one (le_max_right p 1)
  have h2 : ((max p 1 : ℤ) : ℝ) ≤ ((max q 1 : ℤ) : ℝ) := by
    exact_mod_cast max_le_max_right 1 hpq
  have := Real.logb_le_logb_of_le (b := 10) (by norm_num) h1 h2
  linarith

theorem normalize_points_of_le_one {r : Int} (hr : r ≤ 1) :
    normalize_points (some r) = 0 := by
  rw [normalize_points_eq_logb, max_eq_right hr]
  simp [Real.logb_one]

theorem time_decay_pos (now : ℚ) (d : PyDatetime) :
    0 < time_decay_score now (some d) := by
  have := Real.exp_pos (-((ageHours now d : ℚ) : ℝ) / 24)
  simp only [time_decay_score]
  linarith

theorem time_decay_le_100 {now : ℚ} {d : PyDatetime}
    (h : 0 ≤ ageHours now d) : time_decay_score now (some d) ≤ 100 := by
  have h' : (0 : ℝ) ≤ ((ageHours now d : ℚ) : ℝ) := by exact_mod_cast h
  have hexp : Real.exp (-((ageHours now d : ℚ) : ℝ) / 24) ≤ 1 :=
    Real.exp_le_one_iff.mpr (by linarith)
  simp only [time_decay_score]
  linarith

theorem time_decay_strict_anti {now : ℚ} {d1 d2 : PyDatetime}
    (h : ageHours now d1 < ageHours now d2) :
    time_decay_score now (some d2) < time_decay_score now (some d1) := by
  have h' : ((ageHours now d1 : ℚ) : ℝ) < ((ageHours now d2 : ℚ) : ℝ) := by
    exact_mod_cast h
  have hexp : Real.exp (-((ageHours now d2 : ℚ) : ℝ) / 24) <
      Real.exp (-((ageHours now d1 : ℚ) : ℝ) / 24) :=
    Real.exp_lt_exp.mpr (by linarith)
  simp only [time_decay_score]
  linarith

theorem dedupAux_sublist : ∀ (rs : List Rec)
    (seen : List (Option String × String)), List.Sublist (dedupAux seen rs) rs := by
  intro rs
  induction rs with
  | nil => intro seen; exact List.Sublist.refl []
  | cons a rest ih =>
    intro seen
    by_cases h : dedupKey a ∈ seen
    · simp only [dedupAux, if_pos h]
      exact (ih seen).cons a
    · simp only [dedupAux, if_neg h]
      exact (ih (dedupKey a :: seen)).cons₂ a

theorem dedupAux_filter (k : Option String × String) : ∀ (rs : List Rec)
    (seen : List (Option String × String)),
    (dedupAux seen rs).filter (fun a => decide (dedupKey a = k)) =
      if k ∈ seen then []
      else (rs.filter (fun a => decide (dedupKey a = k))).take 1 := by
  intro rs
  induction rs with
  | nil => intro seen; by_cases h : k ∈ seen <;> simp [dedupAux, h]
  | cons a rest ih =>
    intro seen
    by_cases hs : dedupKey a ∈ seen
    · simp only [dedupAux, if_pos hs]
      rw [ih seen]
      by_cases hk : k ∈ seen
      · simp [hk]
      · have hne : ¬ (dedupKey a = k) := fun he => hk (he ▸ hs)
        simp [hk, List.filter_cons, hne]
    · simp only [dedupAux, if_neg hs]
      by_cases hak : dedupKey a = k
      · have hk : ¬ k ∈ seen := fun hk => hs (hak ▸ hk)
        rw [List.filter_cons, List.filter_cons, ih (dedupKey a :: seen)]
        simp [hak, hk]
      · have hka : ¬ (k = dedupKey a) := fun h => hak h.symm
        rw [List.filter_cons, List.filter_cons, ih (dedupKey a :: seen)]
        by_cases hk : k ∈ seen
        · simp [hk, hak, List.mem_cons]
        · simp [List.mem_cons, hak, hk, hka]

theorem dedup_filter (rs : List Rec) (k : Option String × String) :
    (dedup rs).filter (fun a => decide (dedupKey a = k)) =
      (rs.filter (fun a => decide (dedupKey a = k))).take 1 := by
  rw [dedup, dedupAux_filter]
  simp

theorem dedup_countP_le_one (rs : List Rec) (k : Option String × String) :
    (dedup rs).countP (fun a => decide (dedupKey a = k)) ≤ 1 := by
  rw [List.countP_eq_length_filter, dedup_filter]
  exact le_trans (List.length_take_le 1 _) (le_refl 1)

theorem dedup_key_mem (rs : List Rec) {a : Rec} (ha : a ∈ rs) :
    (dedup rs).countP (fun b => decide (dedupKey b = dedupKey a)) = 1 := by
  rw [List.countP_eq_length_filter, dedup_filter]
  have hne : rs.filter (fun b => decide (dedupKey b = dedupKey a)) ≠ [] := by
    intro h
    have : a ∈ rs.filter (fun b => decide (dedupKey b = dedupKey a)) :=
      List.mem_filter.mpr ⟨ha, by simp⟩
    rw [h] at this
    exact List.not_mem_nil a this
  match hl : rs.filter (fun b => decide (dedupKey b = dedupKey a)) with
  | [] => exact absurd hl hne
  | b :: l => simp

/-- Concatenating the first `k` pages of size `S` gives the first `k*S`
elements. -/
theorem pages_flatten {α : Type} (S : ℕ) (l : List α) : ∀ (k : ℕ),
    ((List.range k).map (fun i => (l.drop (i * S)).take S)).flatten =
      l.take (k * S) := by
  intro k
  induction k with
  | zero => simp
  | succ k ih =>
    rw [List.range_succ, List.map_append, List.flatten_append]
    simp only [List.map_cons, List.map_nil, List.flatten_cons,
      List.flatten_nil, List.append_nil, ih]
    rw [Nat.succ_mul, List.take_add]

/-- `ceil(N/S) * S ≥ N` for `S > 0`, with `ceil(N/S) = (N + S - 1) / S`. -/
theorem ceil_mul_ge (N S : ℕ) (hS : 0 < S) : N ≤ ((N + S - 1) / S) * S := by
  have h1 : (N + S - 1) % S < S := Nat.mod_lt _ hS
  have h2 : S * ((N + S - 1) / S) + (N + S - 1) % S = N + S - 1 :=
    Nat.div_add_mod (N + S - 1) S
  have h3 : ((N + S - 1) / S) * S = S * ((N + S - 1) / S) :=
    Nat.mul_comm _ _
  omega

/-- An article published exactly at the scoring instant has age 0. -/
theorem ageHours_self (now : ℚ) : ageHours now ⟨now, some 0⟩ = 0 := by
  simp [ageHours, aware, utcSeconds]

/-- An article published at epoch 0, scored at epoch 3600, is one hour old. -/
theorem ageHours_one_hour : ageHours 3600 ⟨0, some 0⟩ = 1 := by
  norm_num [ageHours, aware, utcSeconds]

/-- An article published at epoch 86400, scored at epoch 0, has age -24 h. -/
theorem ageHours_future : ageHours 0 ⟨86400, some 0⟩ = -24 := by
  norm_num [ageHours, aware, utcSeconds]

/-! ## Claim theorems -/

/-- Claim C4: for every point count `p ≥ 0`, the popularity score equals
`log10(max(p, 1)) * 100`; it is monotonically non-decreasing in `p`,
non-negative, equals 0 for `p ≤ 1` (hence for zero and negative points),
and equals 0 for absent points. -/
theorem claim_C4_popularity (p q : Int) (_hp : 0 ≤ p) (hpq : p ≤ q) :
    (∀ r : Int, normalize_points (some r) =
        Real.logb 10 ((max r 1 : ℤ) : ℝ) * 100) ∧
    normalize_points (some p) ≤ normalize_points (some q) ∧
    (∀ r : Int, 0 ≤ normalize_points (some r)) ∧
    (∀ r : Int, r ≤ 1 → normalize_points (some r) = 0) ∧
    normalize_points none = 0 := by
  refine ⟨normalize_points_eq_logb, normalize_points_mono hpq,
    normalize_points_nonneg, fun r hr => normalize_points_of_le_one hr, rfl⟩

/-- Witness for C4 at `p = 2`, `q = 3`. -/
theorem claim_C4_witness :
    normalize_points (some 2) ≤ normalize_points (some 3) :=
  (claim_C4_popularity 2 3 (by decide) (by decide)).2.1

/-- Claim C3, corrected: for every article whose timestamp is not in the
future (`ageHours ≥ 0`) the recency score equals `100 * exp(-age_hours/24)`,
is strictly decreasing as age increases, lies in `(0, 100]`, equals 0 when
the timestamp is absent, and naive timestamps are read as UTC.  (The
original claim, quantified over every valid timestamp, fails for future
timestamps: see the counterexample.) -/
theorem claim_C3_recency (now : ℚ) (d d1 d2 : PyDatetime)
    (hage : 0 ≤ ageHours now d) (h12 : ageHours now d1 < ageHours now d2) :
    (∀ e : PyDatetime, time_decay_score now (some e) =
        100 * Real.exp (-((ageHours now e : ℚ) : ℝ) / 24)) ∧
    (0 < time_decay_score now (some d) ∧
      time_decay_score now (some d) ≤ 100) ∧
    time_decay_score now (some d2) < time_decay_score now (some d1) ∧
    time_decay_score now none = 0 ∧
    (∀ w : ℚ, time_decay_score now (some ⟨w, none⟩) =
        time_decay_score now (some ⟨w, some 0⟩)) := by
  exact ⟨fun e => rfl,
    ⟨time_decay_pos now d, time_decay_le_100 hage⟩,
    time_decay_strict_anti h12, rfl, fun w => rfl⟩

/-- Witness for C3 at `now = 1` with timestamps at epoch seconds 0 and 1. -/
theorem claim_C3_witness :
    0 < time_decay_score 3600 (some ⟨3600, some 0⟩) ∧
      time_decay_score 3600 (some ⟨3600, some 0⟩) ≤ 100 :=
  (claim_C3_recency 3600 ⟨3600, some 0⟩ ⟨3600, some 0⟩ ⟨0, some 0⟩
    (by simp [ageHours_self]) (by simp [ageHours_self, ageHours_one_hour])).2.1

/-- Counterexample to C3 as stated: a valid timestamp 24 hours in the
future (scored at `now = 0`) yields a recency score above 100, outside the
claimed bound `(0, 100]`. -/
theorem claim_C3_counterexample :
    100 < time_decay_score 0 (some ⟨86400, some 0⟩) := by
  have h1 : (1 : ℝ) < Real.exp 1 := by
    have := Real.add_one_le_exp 1
    linarith
  have h2 : (-(((ageHours 0 ⟨86400, some 0⟩ : ℚ)) : ℝ) / 24) = 1 := by
    rw [ageHours_future]
    norm_num
  simp only [time_decay_score, h2]
  linarith

/-- Claim C9: pagination returns the slice `[(p-1)*S, p*S)`; concatenating
pages `1` through `ceil(N/S)` reproduces the list with no gaps or repeats;
any out-of-range page (in particular page `ceil(N/S)+1`) yields `[]`. -/
theorem claim_C9_pagination (α : Type) (l : List α) (S p : ℕ) (hS : 0 < S)
    (_hp : 1 ≤ p) (hout : l.length ≤ (p - 1) * S) :
    (∀ q : ℕ, page_items l S q = (l.drop ((q - 1) * S)).take S) ∧
    ((List.range ((l.length + S - 1) / S)).map
        (fun i => page_items l S (i + 1))).flatten = l ∧
    page_items l S p = [] ∧
    page_items l S ((l.length + S - 1) / S + 1) = [] := by
  refine ⟨fun q => rfl, ?_, ?_, ?_⟩
  · have h : ∀ i : ℕ, page_items l S (i + 1) = (l.drop (i * S)).take S := by
      intro i; simp [page_items]
    calc ((List.range ((l.length + S - 1) / S)).map
            (fun i => page_items l S (i + 1))).flatten
        = ((List.range ((l.length + S - 1) / S)).map
            (fun i => (l.drop (i * S)).take S)).flatten := by
          simp only [h]
      _ = l.take (((l.length + S - 1) / S) * S) := pages_flatten S l _
      _ = l := List.take_of_length_le (ceil_mul_ge l.length S hS)
  · rw [page_items, List.drop_eq_nil_of_le hout, List.take_nil]
  · rw [page_items, List.drop_eq_nil_of_le, List.take_nil]
    simpa using ceil_mul_ge l.length S hS

/-- Witness for C9 at a 3-element list, page size 2, page 3. -/
theorem claim_C9_witness : page_items [0, 1, 2] 2 3 = ([] : List ℕ) :=
  (claim_C9_pagination ℕ [0, 1, 2] 2 3 (by decide) (by decide)
    (by decide)).2.2.1

/-- Claim C5, corrected: for a keyword string that parses to a nonempty
keyword list, the include and exclude filters are complements: the include
filter passes a title exactly when the exclude filter removes it.  (The
original claim — an article matching the include list is never removed by
the same exclude list — is exactly backwards: see the counterexample.) -/
theorem claim_C5_keywords (text keywords_csv : String)
    (h1 : pyStrip keywords_csv ≠ "") (h2 : kwList keywords_csv ≠ []) :
    matches_keywords text keywords_csv true =
      !(matches_keywords text keywords_csv false) := by
  simp [matches_keywords, h1, h2]

/-- Witness for C5 at title "abc", keywords "news". -/
theorem claim_C5_witness :
    matches_keywords "abc" "news" true =
      !(matches_keywords "abc" "news" false) :=
  claim_C5_keywords "abc" "news" (by decide) (by decide)

/-- Counterexample to C5 as stated: the title "hello news" matches the
include list "news", yet the same list used as an exclude list removes it
(`matches_keywords _ _ false  = false` means rejected). -/
theorem claim_C5_counterexample :
    matches_keywords "hello news" "news" true = true ∧
      matches_keywords "hello news" "news" false = false := by
  decide

/-- Claim C2: `aggregate`'s de-duplication collapses all records sharing a
`(url, title[:80])` key to exactly one — the first-seen record — discards
later duplicates regardless of source, preserves first-seen order (the
output is a sublist of the input), and `aggregate` is exactly this
de-duplication applied to the scored, categorized fetch results. -/
theorem claim_C2_dedup (rs : List Rec) :
    List.Sublist (dedup rs) rs ∧
    (∀ k, (dedup rs).filter (fun a => decide (dedupKey a = k)) =
      (rs.filter (fun a => decide (dedupKey a = k))).take 1) ∧
    (∀ a ∈ rs,
      (dedup rs).countP (fun b => decide (dedupKey b = dedupKey a)) = 1) ∧
    (∀ (fhn : List Rec) (fr : String → List Rec) (now : ℚ) (cat : String)
        (eh er : Bool) (subs : List String),
      aggregate fhn fr now cat eh er subs =
        dedup (scoreAll now cat
          ((if er then (subs.map fr).flatten else []) ++
           (if eh then fhn else [])))) :=
  ⟨dedupAux_sublist rs [], dedup_filter rs,
   fun _ ha => dedup_key_mem rs ha, fun _ _ _ _ _ _ _ => rfl⟩

/-- Witness for C2: two records with equal keys and different sources
(an HN-sourced and a Reddit-sourced record with the same url and title)
collapse to exactly one. -/
theorem claim_C2_witness :
    (dedup [mkArticle "T" "U" "Hacker News" 1 0 .null none,
      mkArticle "T" "U" "r/technology" 2 0 .null none]).countP
      (fun b => decide (dedupKey b =
        dedupKey (mkArticle "T" "U" "Hacker News" 1 0 .null none))) = 1 :=
  (claim_C2_dedup [mkArticle "T" "U" "Hacker News" 1 0 .null none,
    mkArticle "T" "U" "r/technology" 2 0 .null none]).2.2.1
    (mkArticle "T" "U" "Hacker News" 1 0 .null none)
    (List.mem_cons_self _ _)

/-- The number of surfaced error messages plus the number of surviving
articles is the number of input records (the split is a partition). -/
theorem split_length (items : List Rec) :
    (removeErrors items).length + (extractErrors items).length =
      items.length := by
  induction items with
  | nil => rfl
  | cons a t ih =>
    simp only [removeErrors, extractErrors, List.filter_cons,
      List.filterMap_cons] at ih ⊢
    cases h : a.error with
    | none => simp [h]; omega
    | some m => simp [h]; omega

/-- Claim C6, corrected: the error-marker separation happens in the caller
right after `aggregate` returns (source lines 218-219), not inside the
Aggregator; applied to any record list it yields an article list free of
error markers plus the side list of exactly the markers' messages,
preserving order, so the pipeline always returns a well-formed (possibly
empty) article list.  (The original claim — that `aggregate`'s own result
contains no error markers — is refuted by the counterexample.) -/
theorem claim_C6_separation (items : List Rec) :
    (∀ a ∈ removeErrors items, a.error = none) ∧
    (∀ m : String, m ∈ extractErrors items ↔ ∃ a ∈ items, a.error = some m) ∧
    (removeErrors items).length + (extractErrors items).length =
      items.length ∧
    List.Sublist (removeErrors items) items := by
  refine ⟨?_, ?_, split_length items, List.filter_sublist items⟩
  · intro a ha
    have h := (List.mem_filter.mp ha).2
    exact Option.isNone_iff_eq_none.mp h
  · intro m
    simp [extractErrors, List.mem_filterMap]

/-- Witness for C6: a surviving article in a concrete split has no error
marker. -/
theorem claim_C6_witness :
    (mkArticle "t" "u" "s" 1 2 .null none).error = none :=
  (claim_C6_separation [mkArticle "t" "u" "s" 1 2 .null none]).1
    (mkArticle "t" "u" "s" 1 2 .null none)
    (List.mem_filter.mpr ⟨List.mem_cons_self _ _, rfl⟩)

/-- Counterexample to C6 as stated: with a failing HN fetch, the result
list of `aggregate` itself still contains an error marker (the separation
is not the Aggregator's doing). -/
theorem claim_C6_counterexample :
    (aggregate [errRec (hnErrMsg "boom")] (fun _ => []) 0 "general" true
      false []).countP (fun a => a.error.isSome) = 1 := by
  simp [aggregate, scoreAll, scoreRec, dedup, dedupAux, dedupKey, errRec,
    List.countP_cons]

/-- Scoring an error marker: score 0 (no points, no timestamp) and the
configured category are attached, the message is kept. -/
theorem scoreRec_errRec (now : ℚ) (cat m : String) :
    scoreRec now cat (errRec m) =
      ⟨none, none, none, none, none, .null, none, some 0, some cat,
       some m⟩ := by
  simp [scoreRec, errRec, normalize_points, time_decay_score]

theorem scoreAll_mem {now : ℚ} {cat : String} {rs : List Rec} {a : Rec}
    (ha : a ∈ scoreAll now cat rs) : ∃ b ∈ rs, a = scoreRec now cat b := by
  rcases List.mem_map.mp ha with ⟨b, hb, hba⟩
  exact ⟨b, hb, hba.symm⟩

/-- Claim C10: in `aggregate`'s output every error marker carries score 0
and the configured category, its de-duplication key is `(None, "")`, and —
since all markers share that key — at most one error marker survives,
however many sources failed. -/
theorem claim_C10_markers (fhn : List Rec) (fr : String → List Rec)
    (now : ℚ) (cat : String) (eh er : Bool) (subs : List String)
    (hhn : ∀ a ∈ fhn, a.error.isSome = true → ∃ m, a = errRec m)
    (hr : ∀ s, ∀ a ∈ fr s, a.error.isSome = true → ∃ m, a = errRec m) :
    (∀ a ∈ aggregate fhn fr now cat eh er subs, a.error.isSome = true →
      a.score = some 0 ∧ a.category = some cat ∧ dedupKey a = (none, "")) ∧
    (aggregate fhn fr now cat eh er subs).countP
      (fun a => a.error.isSome) ≤ 1 := by
  have hbase : ∀ b ∈ ((if er then (subs.map fr).flatten else []) ++
      (if eh then fhn else [])), b.error.isSome = true → ∃ m, b = errRec m := by
    intro b hb hbe
    rcases List.mem_append.mp hb with h | h
    · by_cases her : er
      · rw [if_pos her] at h
        rcases List.mem_flatten.mp h with ⟨l, hl, hbl⟩
        rcases List.mem_map.mp hl with ⟨s, _, rfl⟩
        exact hr s b hbl hbe
      · rw [if_neg her] at h
        exact absurd h (List.not_mem_nil b)
    · by_cases heh : eh
      · rw [if_pos heh] at h
        exact hhn b h hbe
      · rw [if_neg heh] at h
        exact absurd h (List.not_mem_nil b)
  have hmem : ∀ a ∈ aggregate fhn fr now cat eh er subs,
      a.error.isSome = true →
      a.score = some 0 ∧ a.category = some cat ∧ dedupKey a = (none, "") := by
    intro a ha hae
    have ha' : a ∈ scoreAll now cat
        ((if er then (subs.map fr).flatten else []) ++
         (if eh then fhn else [])) :=
      (dedupAux_sublist _ []).subset ha
    rcases scoreAll_mem ha' with ⟨b, hb, rfl⟩
    rcases hbase b hb hae with ⟨m, rfl⟩
    rw [scoreRec_errRec]
    exact ⟨rfl, rfl, rfl⟩
  refine ⟨hmem, le_trans (List.countP_mono_left ?_) (dedup_countP_le_one
    (scoreAll now cat ((if er then (subs.map fr).flatten else []) ++
      (if eh then fhn else []))) (none, ""))⟩
  intro a ha h
  simp [(hmem a ha h).2.2]

/-- Witness for C10: with a failing HN fetch and two failing subreddits,
at most one marker survives in the aggregate output. -/
theorem claim_C10_witness :
    (aggregate [errRec "e1"] (fun _ => [errRec "e2"]) 0 "general" true true
      ["a", "b"]).countP (fun a => a.error.isSome) ≤ 1 :=
  (claim_C10_markers [errRec "e1"] (fun _ => [errRec "e2"]) 0 "general"
    true true ["a", "b"]
    (fun _ ha _ => ⟨"e1", List.eq_of_mem_singleton ha⟩)
    (fun _ _ ha _ => ⟨"e2", List.eq_of_mem_singleton ha⟩)).2

/-- The C1 scenario, computed: HN returns one record with 1000 points
published at the scoring instant, Reddit "technology" returns a record
with the same url and title and 50 points; `aggregate` (Reddit first, then
HN) keeps exactly the Reddit record, scored
`log10(50)*100 + 100` (popularity + recency). -/
theorem aggregate_scenario (now : ℚ) (cat : String) :
    aggregate
      [mkArticle "T" "U" "Hacker News" 1000 0 .null (some ⟨now, some 0⟩)]
      (fun _ =>
        [mkArticle "T" "U" "r/technology" 50 0 .null (some ⟨now, some 0⟩)])
      now cat true true ["technology"] =
    [⟨some "T", some "U", some "r/technology", some 50, some 0, .null,
      some ⟨now, some 0⟩, some (Real.logb 10 50 * 100 + 100), some cat,
      none⟩] := by
  have h1 : normalize_points (some 50) = Real.logb 10 50 * 100 := by
    rw [normalize_points_eq_logb]
    norm_num
  have h2 : time_decay_score now (some ⟨now, some 0⟩) = 100 := by
    simp [time_decay_score, ageHours_self]
  simp [aggregate, scoreAll, scoreRec, dedup, dedupAux, dedupKey, pyTake,
    mkArticle, h1, h2]

theorem logb_fifty_lt_two : Real.logb 10 50 < 2 := by
  have hb : (1 : ℝ) < 10 := by norm_num
  have h50 : (0 : ℝ) < 50 := by norm_num
  rw [Real.logb_lt_iff_lt_rpow hb h50]
  rw [show (2 : ℝ) = ((2 : ℕ) : ℝ) by norm_num, Real.rpow_natCast]
  norm_num

/-- Claim C1, corrected: in the HN(1000 points, created now) / Reddit
"technology"(same url and title, 50 points) scenario, `aggregate` with
both sources enabled yields exactly one Article for that url and the
first-seen record wins — but `aggregate` extends Reddit before HN, so the
survivor is the Reddit record: popularity `log10(50)*100 ≈ 170`, recency
100, composite `≈ 270`, not the claimed `log10(1000)*100 ≈ 300` popularity
and `≈ 400` composite.  (See the counterexample for the refutation of the
claimed scores.) -/
theorem claim_C1_scenario (now : ℚ) (cat : String) :
    aggregate
      [mkArticle "T" "U" "Hacker News" 1000 0 .null (some ⟨now, some 0⟩)]
      (fun _ =>
        [mkArticle "T" "U" "r/technology" 50 0 .null (some ⟨now, some 0⟩)])
      now cat true true ["technology"] =
    [⟨some "T", some "U", some "r/technology", some 50, some 0, .null,
      some ⟨now, some 0⟩, some (Real.logb 10 50 * 100 + 100), some cat,
      none⟩] :=
  aggregate_scenario now cat

/-- Counterexample to C1 as stated: in the claimed scenario the surviving
Article is the Reddit record with 50 points, and its composite score
`log10(50)*100 + 100` is below 300 — not `≈ 400`, and its popularity
component is below 200 — not `≈ 300`. -/
theorem claim_C1_counterexample :
    aggregate
      [mkArticle "T" "U" "Hacker News" 1000 0 .null (some ⟨0, some 0⟩)]
      (fun _ =>
        [mkArticle "T" "U" "r/technology" 50 0 .null (some ⟨0, some 0⟩)])
      0 "general" true true ["technology"] =
      [⟨some "T", some "U", some "r/technology", some 50, some 0, .null,
        some ⟨0, some 0⟩, some (Real.logb 10 50 * 100 + 100), some "general",
        none⟩] ∧
    Real.logb 10 50 * 100 + 100 < 300 :=
  ⟨aggregate_scenario 0 "general", by nlinarith [logb_fifty_lt_two]⟩

/-- Claim C7, corrected: a fetch failure is isolated — the other sources'
articles still come through and the error list is non-empty — and with a
single failing subreddit plus a working HN fetch the output is the HN
article plus exactly one error message naming the failing subreddit; but
when several sources fail, only the first-seen failure's message survives
(all markers share one de-duplication key), so the error list does not
name every failing source.  Total failure yields an empty article list
plus a non-empty error list. -/
theorem claim_C7_isolation (now : ℚ) (cat ea eb eh t u src : String)
    (p c : Int) (au : JVal) (ts : Option PyDatetime) :
    (∀ (ip : String → Option Int) (fp : String → Option ℚ) (s e : String),
      fetch_reddit ip fp s (.error e) = .ok [errRec (redditErrMsg s e)]) ∧
    (removeErrors (aggregate [mkArticle t u src p c au ts]
        (fun s => [errRec (redditErrMsg s ea)]) now cat true true
        ["doesnotexist123"]) =
      [scoreRec now cat (mkArticle t u src p c au ts)] ∧
     extractErrors (aggregate [mkArticle t u src p c au ts]
        (fun s => [errRec (redditErrMsg s ea)]) now cat true true
        ["doesnotexist123"]) = [redditErrMsg "doesnotexist123" ea]) ∧
    (removeErrors (aggregate [errRec (hnErrMsg eh)]
        (fun s => [errRec (redditErrMsg s (if s = "a" then ea else eb))])
        now cat true true ["a", "b"]) = [] ∧
     extractErrors (aggregate [errRec (hnErrMsg eh)]
        (fun s => [errRec (redditErrMsg s (if s = "a" then ea else eb))])
        now cat true true ["a", "b"]) = [redditErrMsg "a" ea]) := by
  refine ⟨fun _ _ _ _ => rfl, ⟨?_, ?_⟩, ⟨?_, ?_⟩⟩ <;>
    simp [aggregate, scoreAll, scoreRec, dedup, dedupAux, dedupKey, pyTake,
      mkArticle, errRec, removeErrors, extractErrors]

/-- Counterexample to C7 as stated: with two failing subreddits "a" and
"b" (and a failing HN fetch), the surfaced error list contains only the
first failure's message; no message referencing subreddit "b" survives. -/
theorem claim_C7_counterexample :
    extractErrors (aggregate [errRec (hnErrMsg "EH")]
        (fun s => [errRec (redditErrMsg s (if s = "a" then "EA" else "EB"))])
        0 "general" true true ["a", "b"]) = [redditErrMsg "a" "EA"] ∧
    ¬ redditErrMsg "b" "EB" ∈ extractErrors (aggregate
        [errRec (hnErrMsg "EH")]
        (fun s => [errRec (redditErrMsg s (if s = "a" then "EA" else "EB"))])
        0 "general" true true ["a", "b"]) := by
  have h : extractErrors (aggregate [errRec (hnErrMsg "EH")]
      (fun s => [errRec (redditErrMsg s (if s = "a" then "EA" else "EB"))])
      0 "general" true true ["a", "b"]) = [redditErrMsg "a" "EA"] := by
    simp [aggregate, scoreAll, scoreRec, dedup, dedupAux, dedupKey, pyTake,
      errRec, extractErrors]
  refine ⟨h, ?_⟩
  rw [h]
  decide

/-- Claim C8, corrected: each adapter converts every failure of the
guarded HTTP phase (network error, non-2xx status, malformed JSON — all
raised inside its `try`) into an error marker naming the source, and
field-level *missing* data is resolved by the documented defaults
(placeholder title, constructed fallback URL, zero points and comments,
absent author and timestamp); but an unexpected JSON *shape* is not
covered: the parse loop runs outside the `try`, so e.g. a non-object
payload raises `AttributeError` past the adapter boundary (see the
counterexample). -/
theorem claim_C8_adapters :
    (∀ (ip : String → Option Int) (iso : String → Option PyDatetime)
        (e : String),
      fetch_hn ip iso (.error e) = .ok [errRec (hnErrMsg e)]) ∧
    (∀ (ip : String → Option Int) (fp : String → Option ℚ) (s e : String),
      fetch_reddit ip fp s (.error e) = .ok [errRec (redditErrMsg s e)]) ∧
    (∀ (ip : String → Option Int) (iso : String → Option PyDatetime),
      fetch_hn ip iso (.ok (.obj [("hits", .arr [.obj []])])) =
        .ok [⟨some "(no title)",
          some "https://news.ycombinator.com/item?id=None",
          some "Hacker News", some 0, some 0, .null, none, none, none,
          none⟩]) ∧
    (∀ (ip : String → Option Int) (fp : String → Option ℚ) (s : String),
      fetch_reddit ip fp s
          (.ok (.obj [("data", .obj [("children", .arr [.obj []])])])) =
        .ok [⟨some "(no title)", some "https://reddit.com",
          some ("r/" ++ s), some 0, some 0, .null, none, none, none,
          none⟩]) :=
  ⟨fun _ _ _ => rfl, fun _ _ _ _ => rfl, fun _ _ => rfl, fun _ _ _ => rfl⟩

/-- Counterexample to C8 as stated: an unexpected JSON shape — a top-level
array instead of an object — makes `data.get("hits", [])` raise
`AttributeError`, which escapes the adapter boundary instead of being
returned as an error marker. -/
theorem claim_C8_counterexample :
    fetch_hn (fun _ => none) (fun _ => none) (.ok (.arr [])) =
      .error "AttributeError" :=
  rfl

end NewsApp
